import Mathlib

/-!
# Verification of the Sparkify data-lake ETL (`etl.py`)

Shallow embedding of the transformation logic of `etl.py`:
`process_song_data` and `process_log_data` build five output tables
(songs, artists, users, time, songplays) from two record collections
(song/catalog data and event-log data).

Modelling conventions:
* A dataframe is a `List` of rows; each row is a structure whose fields are
  the dataframe's columns.  Spark's nondeterministic row order is fixed to
  the list order of one valid execution.
* Floating-point columns (`length`, `duration`, latitude, longitude) are
  modelled as `Rat`: the pipeline only ever tests them for exact equality,
  which agrees with exact equality of the decimal values involved.
* `ts` is an integer number of epoch milliseconds (`Nat`).
* Python's `datetime.fromtimestamp` converts epoch seconds via the local
  timezone of the executing process; the timezone is modelled as an
  uninterpreted offset function `tz : Int → Int` (seconds east of UTC at a
  given instant), threaded through the log-processing definitions.
* The code stores `datetime` as the string `str(datetime.fromtimestamp _)`,
  i.e. `"YYYY-MM-DD HH:MM:SS"`; it is modelled as the structured value
  `Datetime`.  For four-digit years, lexicographic order on those strings
  coincides with lexicographic order on the components, which is how
  `orderBy('start_time')` and equality on the column are modelled.
-/

/-! ## Calendar arithmetic (proleptic Gregorian, as used by `datetime`) -/

/-- A wall-clock datetime, the components of `str(datetime.fromtimestamp _)`. -/
structure Datetime where
  year : Int
  month : Nat
  day : Nat
  hour : Nat
  minute : Nat
  second : Nat
deriving DecidableEq, Repr

/-- Civil date from a count of days since 1970-01-01 (proleptic Gregorian
calendar, Howard Hinnant's `civil_from_days`, with Euclidean division in
place of the truncation-compensating shift).  Returns `(year, month, day)`. -/
def civilFromDays (z : Int) : Int × Nat × Nat :=
  let z' := z + 719468
  let era : Int := z' / 146097
  let doe : Nat := (z' % 146097).toNat
  let yoe : Nat := (doe - doe / 1460 + doe / 36524 - doe / 146096) / 365
  let doy : Nat := doe - (365 * yoe + yoe / 4 - yoe / 100)
  let mp : Nat := (5 * doy + 2) / 153
  let d : Nat := doy - (153 * mp + 2) / 5 + 1
  let m : Nat := if mp < 10 then mp + 3 else mp - 9
  ((yoe : Int) + era * 400 + (if m ≤ 2 then 1 else 0), m, d)

/-- Days since 1970-01-01 of a civil date (Hinnant's `days_from_civil`). -/
def daysFromCivil (y : Int) (m d : Nat) : Int :=
  let yAdj : Int := if m ≤ 2 then y - 1 else y
  let era : Int := yAdj / 400
  let yoe : Nat := (yAdj % 400).toNat
  let mp : Nat := if 3 ≤ m then m - 3 else m + 9
  let doy : Nat := (153 * mp + 2) / 5 + d - 1
  let doe : Nat := 365 * yoe + yoe / 4 - yoe / 100 + doy
  era * 146097 + (doe : Int) - 719468

/-- Python's `datetime.fromtimestamp`: epoch seconds to local wall-clock
datetime, where `tz` gives the local-timezone offset (in seconds) at each
instant. -/
def pyFromtimestamp (tz : Int → Int) (s : Nat) : Datetime :=
  let t : Int := (s : Int) + tz (s : Int)
  let days : Int := t / 86400
  let sod : Nat := (t % 86400).toNat
  let c := civilFromDays days
  ⟨c.1, c.2.1, c.2.2, sod / 3600, sod % 3600 / 60, sod % 60⟩

/-- Spark's `dayofweek`: day of the week of a date, 1 = Sunday … 7 = Saturday
(1970-01-01 was a Thursday, hence the offset 4). -/
def dayofweek (dt : Datetime) : Nat :=
  ((daysFromCivil dt.year dt.month dt.day + 4) % 7).toNat + 1

/-- Gregorian leap-year test. -/
def isLeap (y : Int) : Bool :=
  (y % 4 == 0 && y % 100 != 0) || y % 400 == 0

/-- ISO day of the week, 1 = Monday … 7 = Sunday. -/
def isoDayOfWeek (y : Int) (m d : Nat) : Nat :=
  ((daysFromCivil y m d + 3) % 7).toNat + 1

/-- Number of ISO weeks in a year (53 iff Jan 1 is a Thursday, or a
Wednesday in a leap year). -/
def isoWeeksInYear (y : Int) : Nat :=
  let j := isoDayOfWeek y 1 1
  if j == 4 || (isLeap y && j == 3) then 53 else 52

/-- Spark's `weekofyear`: the ISO-8601 week number of the date. -/
def weekofyear (dt : Datetime) : Nat :=
  let doy : Nat := (daysFromCivil dt.year dt.month dt.day -
    daysFromCivil dt.year 1 1).toNat + 1
  let dow := isoDayOfWeek dt.year dt.month dt.day
  let w : Nat := (doy + 10 - dow) / 7
  if w == 0 then isoWeeksInYear (dt.year - 1)
  else if isoWeeksInYear dt.year < w then 1
  else w

/-- Lexicographic order on datetime components; for four-digit years this is
exactly the lexicographic string order on `"YYYY-MM-DD HH:MM:SS"` that
`orderBy('start_time')` sorts by. -/
def Datetime.le (a b : Datetime) : Prop :=
  a.year < b.year ∨ (a.year = b.year ∧
    (a.month < b.month ∨ (a.month = b.month ∧
      (a.day < b.day ∨ (a.day = b.day ∧
        (a.hour < b.hour ∨ (a.hour = b.hour ∧
          (a.minute < b.minute ∨ (a.minute = b.minute ∧
            a.second ≤ b.second)))))))))

instance : DecidableRel Datetime.le := fun a b => by
  unfold Datetime.le; exact inferInstance

/-! ## Input records

The input schemas are external to `etl.py` (they are read from JSON); the
attributes below are the ones named by the specification's data model
(`CatalogRecord`, `EventRecord`), with the source's column names. -/

/-- One song-data JSON record (the spec's `CatalogRecord`). -/
structure CatalogRecord where
  song_id : String
  title : String
  artist_id : String
  artist_name : String
  artist_location : String
  artist_latitude : Rat
  artist_longitude : Rat
  year : Int
  duration : Rat
deriving DecidableEq, Repr

/-- One log-data JSON record (the spec's `EventRecord`). -/
structure EventRecord where
  page : String
  userId : String
  firstName : String
  lastName : String
  gender : String
  level : String
  ts : Nat
  song : String
  artist : String
  length : Rat
  sessionId : Int
  location : String
  userAgent : String
deriving DecidableEq, Repr

/-- A log record extended with the `timestamp` and `datetime` columns added
by the two `withColumn` calls of `process_log_data`.  (`timestamp` is a
numeric string in the code; its integer value is kept.) -/
structure EventRecordT extends EventRecord where
  timestamp : Nat
  datetime : Datetime
deriving DecidableEq, Repr

/-! ## Output rows -/

/-- A row of `songs_table`. -/
structure SongRow where
  song_id : String
  title : String
  artist_id : String
  year : Int
  duration : Rat
deriving DecidableEq, Repr

/-- A row of `artists_table`. -/
structure ArtistRow where
  artist_id : String
  artist_name : String
  artist_location : String
  artist_latitude : Rat
  artist_longitude : Rat
deriving DecidableEq, Repr

/-- A row of `users_table`. -/
structure UserRow where
  userId : String
  firstName : String
  lastName : String
  gender : String
  level : String
deriving DecidableEq, Repr

/-- A row of `time_table`. -/
structure TimeRow where
  start_time : Datetime
  hour : Nat
  day : Nat
  week : Nat
  month : Nat
  year : Int
  weekday : Nat
deriving DecidableEq, Repr

/-- A row of `songplays_table`.  Note that `year` is the column named
`'year'` of the joined dataframe, which is the catalog record's `year`
(the log side has no `year` column), while `month` is
`month('datetime')`. -/
structure SongplayRow where
  songplay_id : Nat
  start_time : Datetime
  user_id : String
  level : String
  song_id : String
  artist_id : String
  session_id : Int
  location : String
  user_agent : String
  year : Int
  month : Nat
deriving DecidableEq, Repr

/-! ## Generic dataframe operations -/

/-- Model of `drop_duplicates([key])`: one row per distinct key.  Spark
retains a nondeterministically chosen representative ("first-seen-wins" in
the spec's sense, winner unspecified); this model fixes the choice to the
last occurrence, which structural recursion makes convenient. -/
def dedupBy {α κ : Type} [DecidableEq κ] (k : α → κ) : List α → List α
  | [] => []
  | x :: xs => if k x ∈ xs.map k then dedupBy k xs else x :: dedupBy k xs

/-! ## `process_song_data` -/

/-- Projection of a catalog record to a `songs_table` row
(`select('song_id', 'title', 'artist_id', 'year', 'duration')`). -/
def songRowOf (c : CatalogRecord) : SongRow :=
  ⟨c.song_id, c.title, c.artist_id, c.year, c.duration⟩

/-- The songs dimension: project then `drop_duplicates(['song_id'])`. -/
def songs_table (song_df : List CatalogRecord) : List SongRow :=
  dedupBy (fun r => r.song_id) (song_df.map songRowOf)

/-- Projection of a catalog record to an `artists_table` row. -/
def artistRowOf (c : CatalogRecord) : ArtistRow :=
  ⟨c.artist_id, c.artist_name, c.artist_location, c.artist_latitude,
    c.artist_longitude⟩

/-- The artists dimension: project then `drop_duplicates(['artist_id'])`. -/
def artists_table (song_df : List CatalogRecord) : List ArtistRow :=
  dedupBy (fun r => r.artist_id) (song_df.map artistRowOf)

/-! ## `process_log_data` -/

/-- The event filter `df.filter(df['page'] == 'NextSong')`. -/
def filterNextSong (df : List EventRecord) : List EventRecord :=
  df.filter (fun r => decide (r.page = "NextSong"))

/-- Projection of a filtered log record to a `users_table` row. -/
def userRowOf (r : EventRecord) : UserRow :=
  ⟨r.userId, r.firstName, r.lastName, r.gender, r.level⟩

/-- The users dimension: project the filtered records, then
`drop_duplicates(['userId'])`. -/
def users_table (df : List EventRecord) : List UserRow :=
  dedupBy (fun r => r.userId) ((filterNextSong df).map userRowOf)

/-- The udf `get_timestamp = udf(lambda x: str(int(int(x)/1000)))`: epoch
milliseconds to epoch seconds.  For every timestamp below 2^52 ms Python's
true division followed by `int` truncation coincides with integer floor
division by 1000, which is how it is modelled. -/
def get_timestamp (x : Nat) : Nat := x / 1000

/-- The udf `get_datetime = udf(lambda x: str(datetime.fromtimestamp(int(x))))`. -/
def get_datetime (tz : Int → Int) (x : Nat) : Datetime := pyFromtimestamp tz x

/-- The two `withColumn` calls adding `timestamp` and `datetime` to the
filtered log dataframe. -/
def withTimeColumns (tz : Int → Int) (df : List EventRecord) :
    List EventRecordT :=
  df.map (fun r =>
    { toEventRecord := r
      timestamp := get_timestamp r.ts
      datetime := get_datetime tz (get_timestamp r.ts) })

/-- One `time_table` row derived from a `datetime` value: the
`withColumn` chain `start_time` / `hour` / `day` / `week` / `month` /
`year` / `weekday`, in the code's `select` order. -/
def timeRowOf (d : Datetime) : TimeRow :=
  ⟨d, d.hour, d.day, weekofyear d, d.month, d.year, dayofweek d⟩

/-- Order on `time_table` rows used by `orderBy('start_time')`. -/
def TimeRow.le (a b : TimeRow) : Prop := Datetime.le a.start_time b.start_time

instance : DecidableRel TimeRow.le := fun a b => by
  unfold TimeRow.le Datetime.le; exact inferInstance

instance : IsTotal TimeRow TimeRow.le :=
  ⟨fun a b => by unfold TimeRow.le Datetime.le; omega⟩

instance : IsTrans TimeRow TimeRow.le :=
  ⟨fun a b c h1 h2 => by unfold TimeRow.le Datetime.le at *; omega⟩

/-- The time dimension: derive the calendar columns from `datetime`, then
`drop_duplicates(['start_time']).orderBy('start_time')`. -/
def time_table (tz : Int → Int) (df : List EventRecord) : List TimeRow :=
  List.insertionSort TimeRow.le
    (dedupBy (fun r => r.start_time)
      ((withTimeColumns tz (filterNextSong df)).map (fun r => timeRowOf r.datetime)))

/-- The join predicate of the songplays join:
`df.song == song_df.title AND df.artist == song_df.artist_name AND
df.length == song_df.duration` (exact equality on all three). -/
def joinPred (e : EventRecordT) (s : CatalogRecord) : Prop :=
  e.song = s.title ∧ e.artist = s.artist_name ∧ e.length = s.duration

instance (e : EventRecordT) (s : CatalogRecord) : Decidable (joinPred e s) := by
  unfold joinPred; exact inferInstance

/-- The inner join of the (filtered, time-extended) log dataframe with the
catalog dataframe: all pairs satisfying the join predicate, in log-major
order.  The joined row carries every column of both sides (the two column
sets are disjoint), so it is modelled as the pair of rows. -/
def joinedRows (tz : Int → Int) (df : List EventRecord)
    (song_df : List CatalogRecord) : List (EventRecordT × CatalogRecord) :=
  (withTimeColumns tz (filterNextSong df)).flatMap (fun e =>
    (song_df.filter (fun s => decide (joinPred e s))).map (fun s => (e, s)))

/-- The `select` of `songplays_table`, applied to joined row `(e, s)` with
`monotonically_increasing_id` value `i`.  `col('year')` resolves to the
catalog side's `year` (the only `year` column of the joined dataframe);
`month('datetime')` is the month component of `datetime`. -/
def songplayRowOf (i : Nat) (e : EventRecordT) (s : CatalogRecord) :
    SongplayRow :=
  ⟨i, e.datetime, e.userId, e.level, s.song_id, s.artist_id, e.sessionId,
    e.location, e.userAgent, s.year, e.datetime.month⟩

/-- Id assignment `withColumn('songplay_id', monotonically_increasing_id())`
followed by the `select`: the engine assigns unique increasing ids;
modelled as the row's position in the deduplicated joined list. -/
def numberRows (i : Nat) : List (EventRecordT × CatalogRecord) →
    List SongplayRow
  | [] => []
  | p :: ps => songplayRowOf i p.1 p.2 :: numberRows (i + 1) ps

/-- The songplays fact table: join, `drop_duplicates()` on the full row,
assign `songplay_id`, select. -/
def songplays_table (tz : Int → Int) (df : List EventRecord)
    (song_df : List CatalogRecord) : List SongplayRow :=
  numberRows 0 (joinedRows tz df song_df).dedup

/-! ## Specification-side definitions -/

/-- Sunday-first numbering of the day of the week, as claim C10 words it:
1 = Sunday through 7 = Saturday, counted from the reference Sunday
2023-01-01. -/
def sundayFirstWeekday (dt : Datetime) : Nat :=
  ((daysFromCivil dt.year dt.month dt.day - daysFromCivil 2023 1 1) % 7).toNat + 1

/-- Erase the synthetic `songplay_id` of a fact row, for statements that
compare songplays output "ignoring event_id". -/
def SongplayRow.dropId (r : SongplayRow) : SongplayRow :=
  { r with songplay_id := 0 }

/-! ## Concrete inputs (the specification's example scenario) -/

/-- The UTC timezone, used to instantiate the local-timezone parameter in
concrete evaluations. -/
def tzUTC : Int → Int := fun _ => 0

/-- The spec's example catalog record: track T1 of creator C1, released
in the year 2000, duration 200.0 seconds. -/
def exSong : CatalogRecord :=
  ⟨"T1", "Song A", "C1", "Artist X", "LA", 34, -118, 2000, 200⟩

/-- The spec's example playback event: timestamp 1000000000000 ms, which
decodes (under UTC) to 2001-09-09 01:46:40. -/
def exEvent : EventRecord :=
  ⟨"NextSong", "42", "Jo", "Doe", "F", "free", 1000000000000,
    "Song A", "Artist X", 200, 5, "SF", "agent"⟩

/-- The example event after the `timestamp` and `datetime` columns. -/
def exEventT : EventRecordT :=
  { toEventRecord := exEvent
    timestamp := 1000000000
    datetime := ⟨2001, 9, 9, 1, 46, 40⟩ }

/-- The single songplays row the example scenario must produce. -/
def exSongplay : SongplayRow :=
  ⟨0, ⟨2001, 9, 9, 1, 46, 40⟩, "42", "free", "T1", "C1", 5, "SF", "agent",
    2000, 9⟩

/-- The single time-table row of the example scenario (2001-09-09 was a
Sunday and the 36th ISO week). -/
def exTimeRow : TimeRow := ⟨⟨2001, 9, 9, 1, 46, 40⟩, 1, 9, 36, 9, 2001, 1⟩

/-- A non-playback event (`page = "Home"`), for the filter claim. -/
def exVisit : EventRecord :=
  ⟨"Home", "42", "Jo", "Doe", "F", "free", 1000000000000,
    "", "", 0, 5, "SF", "agent"⟩

/-- The spec's negative example: same event but `length = 200.01`
(`mkRat 20001 100`), so no catalog record matches exactly. -/
def exMismatch : EventRecord :=
  ⟨"NextSong", "42", "Jo", "Doe", "F", "free", 1000000000000,
    "Song A", "Artist X", mkRat 20001 100, 5, "SF", "agent"⟩

/-- A second playback event in the same whole second as `exEvent`
(999 ms later), for the timestamp-truncation claim. -/
def exEventLate : EventRecord :=
  ⟨"NextSong", "77", "Al", "Poe", "M", "paid", 1000000000999,
    "Song A", "Artist X", 200, 6, "NY", "agent2"⟩

/-- The late event after the `timestamp` and `datetime` columns: the same
second, hence the same datetime. -/
def exEventLateT : EventRecordT :=
  { toEventRecord := exEventLate
    timestamp := 1000000000
    datetime := ⟨2001, 9, 9, 1, 46, 40⟩ }

/-! ## Helper lemmas -/

theorem dedupBy_subset {α κ : Type} [DecidableEq κ] (k : α → κ) :
    ∀ (l : List α), ∀ a ∈ dedupBy k l, a ∈ l
  | [], a, h => by simp [dedupBy] at h
  | x :: xs, a, h => by
    unfold dedupBy at h
    split at h
    · exact List.mem_cons_of_mem x (dedupBy_subset k xs a h)
    · rcases List.mem_cons.1 h with h | h
      · exact h ▸ List.mem_cons_self x xs
      · exact List.mem_cons_of_mem x (dedupBy_subset k xs a h)

theorem dedupBy_keys_mem {α κ : Type} [DecidableEq κ] (k : α → κ) :
    ∀ (l : List α), ∀ a ∈ l, k a ∈ (dedupBy k l).map k
  | [], a, h => by simp at h
  | x :: xs, a, h => by
    unfold dedupBy
    rcases List.mem_cons.1 h with rfl | h
    · split
      · next hin =>
        obtain ⟨b, hb, hkb⟩ := List.mem_map.1 hin
        exact hkb ▸ dedupBy_keys_mem k xs b hb
      · exact List.mem_map_of_mem k (List.mem_cons_self _ _)
    · split
      · exact dedupBy_keys_mem k xs a h
      · exact List.mem_cons_of_mem _ (dedupBy_keys_mem k xs a h)

theorem dedupBy_keys_nodup {α κ : Type} [DecidableEq κ] (k : α → κ) :
    ∀ (l : List α), ((dedupBy k l).map k).Nodup
  | [] => by simp [dedupBy]
  | x :: xs => by
    unfold dedupBy
    split
    · exact dedupBy_keys_nodup k xs
    · next hnin =>
      rw [List.map_cons, List.nodup_cons]
      refine ⟨fun hc => hnin ?_, dedupBy_keys_nodup k xs⟩
      obtain ⟨b, hb, hkb⟩ := List.mem_map.1 hc
      exact hkb ▸ List.mem_map_of_mem k (dedupBy_subset k xs b hb)

theorem mem_filterNextSong {df : List EventRecord} {r : EventRecord} :
    r ∈ filterNextSong df ↔ r ∈ df ∧ r.page = "NextSong" := by
  simp [filterNextSong, List.mem_filter]

theorem mem_withTimeColumns {tz : Int → Int} {df : List EventRecord}
    {e : EventRecordT} : e ∈ withTimeColumns tz df ↔
      e.toEventRecord ∈ df ∧ e.timestamp = get_timestamp e.ts ∧
        e.datetime = get_datetime tz (get_timestamp e.ts) := by
  constructor
  · intro h
    obtain ⟨r, hr, rfl⟩ := List.mem_map.1 h
    exact ⟨hr, rfl, rfl⟩
  · rintro ⟨h1, h2, h3⟩
    refine List.mem_map.2 ⟨e.toEventRecord, h1, ?_⟩
    cases e
    simp_all

theorem mem_joinedRows {tz : Int → Int} {df : List EventRecord}
    {song_df : List CatalogRecord} {p : EventRecordT × CatalogRecord} :
    p ∈ joinedRows tz df song_df ↔
      p.1 ∈ withTimeColumns tz (filterNextSong df) ∧ p.2 ∈ song_df ∧
        joinPred p.1 p.2 := by
  unfold joinedRows
  rw [List.mem_flatMap]
  constructor
  · rintro ⟨e, he, hp⟩
    obtain ⟨s, hs, rfl⟩ := List.mem_map.1 hp
    obtain ⟨hs1, hs2⟩ := List.mem_filter.1 hs
    exact ⟨he, hs1, of_decide_eq_true hs2⟩
  · rintro ⟨h1, h2, h3⟩
    exact ⟨p.1, h1, List.mem_map.2 ⟨p.2, List.mem_filter.2 ⟨h2, decide_eq_true h3⟩, rfl⟩⟩

theorem mem_numberRows {r : SongplayRow} :
    ∀ {i : Nat} {l : List (EventRecordT × CatalogRecord)}, r ∈ numberRows i l →
      ∃ j p, p ∈ l ∧ r = songplayRowOf j p.1 p.2 := by
  intro i l
  induction l generalizing i with
  | nil => intro h; simp [numberRows] at h
  | cons p ps ih =>
    intro h
    rcases List.mem_cons.1 h with h | h
    · exact ⟨i, p, List.mem_cons_self _ _, h⟩
    · obtain ⟨j, q, hq, hr⟩ := ih h
      exact ⟨j, q, List.mem_cons_of_mem _ hq, hr⟩

theorem mem_songplays_table {tz : Int → Int} {df : List EventRecord}
    {song_df : List CatalogRecord} {r : SongplayRow}
    (h : r ∈ songplays_table tz df song_df) :
    ∃ j e s, e ∈ withTimeColumns tz (filterNextSong df) ∧ s ∈ song_df ∧
      joinPred e s ∧ r = songplayRowOf j e s := by
  obtain ⟨j, p, hp, hr⟩ := mem_numberRows h
  have := mem_joinedRows.1 (List.mem_dedup.1 hp)
  exact ⟨j, p.1, p.2, this.1, this.2.1, this.2.2, hr⟩

theorem filterNextSong_middle {e : EventRecord} (h : e.page ≠ "NextSong")
    (l1 l2 : List EventRecord) :
    filterNextSong (l1 ++ e :: l2) = filterNextSong (l1 ++ l2) := by
  unfold filterNextSong
  rw [List.filter_append, List.filter_append, List.filter_cons]
  simp [h]

theorem dayofweek_eq_sundayFirst (dt : Datetime) :
    dayofweek dt = sundayFirstWeekday dt ∧
      1 ≤ dayofweek dt ∧ dayofweek dt ≤ 7 := by
  have href : daysFromCivil 2023 1 1 = 19358 := by decide
  unfold dayofweek sundayFirstWeekday
  rw [href]
  omega

theorem map_dropId_numberRows :
    ∀ (i : Nat) (l : List (EventRecordT × CatalogRecord)),
      (numberRows i l).map SongplayRow.dropId =
        l.map (fun p => songplayRowOf 0 p.1 p.2)
  | _, [] => rfl
  | i, p :: ps => by
    rw [numberRows, List.map_cons, List.map_cons, map_dropId_numberRows (i + 1) ps]
    rfl

/-! ## Sanity evaluations of the embedding on the example scenario -/

example : pyFromtimestamp tzUTC 1000000000 = ⟨2001, 9, 9, 1, 46, 40⟩ := by decide

example : songplays_table tzUTC [exEvent] [exSong] = [exSongplay] := by decide

example : time_table tzUTC [exEvent] = [exTimeRow] := by decide

example : songplays_table tzUTC [exMismatch] [exSong] = [] := by decide

example : exEventT ∈ withTimeColumns tzUTC (filterNextSong [exEvent]) := by decide

/-! ## The claims -/

/-- C1 (code bug witnessed): on the spec's example scenario the produced
songplays row has `month` equal to the month of its `start_time` (September),
but its `year` column is 2000 — the catalog record's release year — while
the calendar year of its own `start_time` is 2001.  The `year` column of
`songplays_table` comes from the joined catalog side, not from `start_time`,
contradicting the partition-consistency property. -/
theorem C1_year_from_catalog :
    ∃ r ∈ songplays_table tzUTC [exEvent] [exSong],
      r.month = r.start_time.month ∧ r.year = 2000 ∧
        r.start_time.year = 2001 ∧ r.year ≠ r.start_time.year := by
  decide

/-- C2: every songplays row originates from a filtered, time-extended event
and a catalog record whose `(title, artist_name, duration)` exactly equal
the event's `(song, artist, length)`, and the row's `song_id` / `artist_id`
are taken from that catalog record. -/
theorem C2_join_soundness (tz : Int → Int) (df : List EventRecord)
    (song_df : List CatalogRecord) (r : SongplayRow)
    (h : r ∈ songplays_table tz df song_df) :
    ∃ e s, e ∈ withTimeColumns tz (filterNextSong df) ∧ s ∈ song_df ∧
      e.song = s.title ∧ e.artist = s.artist_name ∧ e.length = s.duration ∧
      r.song_id = s.song_id ∧ r.artist_id = s.artist_id ∧
      r.start_time = e.datetime ∧ r.user_id = e.userId := by
  obtain ⟨j, e, s, he, hs, hj, rfl⟩ := mem_songplays_table h
  exact ⟨e, s, he, hs, hj.1, hj.2.1, hj.2.2, rfl, rfl, rfl, rfl⟩

/-- Witness for C2 at the spec's example scenario. -/
theorem C2_witness :
    ∃ e s, e ∈ withTimeColumns tzUTC (filterNextSong [exEvent]) ∧
      s ∈ [exSong] ∧
      e.song = s.title ∧ e.artist = s.artist_name ∧ e.length = s.duration ∧
      exSongplay.song_id = s.song_id ∧ exSongplay.artist_id = s.artist_id ∧
      exSongplay.start_time = e.datetime ∧ exSongplay.user_id = e.userId :=
  C2_join_soundness tzUTC [exEvent] [exSong] exSongplay (by decide)

/-- C3: inserting an event whose `page` is not `"NextSong"` anywhere in the
log input leaves the users, time and songplays outputs unchanged — such
records are dropped before any further processing. -/
theorem C3_filter (tz : Int → Int) (l1 l2 : List EventRecord)
    (e : EventRecord) (song_df : List CatalogRecord)
    (h : e.page ≠ "NextSong") :
    users_table (l1 ++ e :: l2) = users_table (l1 ++ l2) ∧
    time_table tz (l1 ++ e :: l2) = time_table tz (l1 ++ l2) ∧
    songplays_table tz (l1 ++ e :: l2) song_df =
      songplays_table tz (l1 ++ l2) song_df := by
  have hf := filterNextSong_middle h l1 l2
  refine ⟨?_, ?_, ?_⟩
  · unfold users_table; rw [hf]
  · unfold time_table; rw [hf]
  · unfold songplays_table joinedRows; rw [hf]

/-- Witness for C3: a `page = "Home"` event contributes to no output. -/
theorem C3_witness :
    users_table ([exEvent] ++ exVisit :: []) = users_table ([exEvent] ++ []) ∧
    time_table tzUTC ([exEvent] ++ exVisit :: []) =
      time_table tzUTC ([exEvent] ++ []) ∧
    songplays_table tzUTC ([exEvent] ++ exVisit :: []) [exSong] =
      songplays_table tzUTC ([exEvent] ++ []) [exSong] :=
  C3_filter tzUTC [exEvent] [] exVisit [exSong] (by decide)

/-- C4: every row's derived `datetime` (the `start_time` of the time and
songplays outputs) equals `datetime.fromtimestamp` — conversion through the
process-local timezone `tz` — applied to `ts` integer-divided by 1000, so
sub-second precision is discarded; two timestamps in the same whole second
yield the same `start_time`. -/
theorem C4_start_time (tz : Int → Int) (df : List EventRecord)
    (e1 e2 : EventRecordT) (h1 : e1 ∈ withTimeColumns tz df)
    (h2 : e2 ∈ withTimeColumns tz df) :
    e1.datetime = pyFromtimestamp tz (e1.ts / 1000) ∧
      (e1.ts / 1000 = e2.ts / 1000 → e1.datetime = e2.datetime) := by
  have d1 := (mem_withTimeColumns.1 h1).2.2
  have d2 := (mem_withTimeColumns.1 h2).2.2
  refine ⟨d1, fun hsec => ?_⟩
  rw [d1, d2]
  unfold get_datetime get_timestamp
  rw [hsec]

/-- Witness for C4: events 876 ms apart inside the same second share their
`start_time`. -/
theorem C4_witness :
    exEventT.datetime = pyFromtimestamp tzUTC (exEventT.ts / 1000) ∧
      (exEventT.ts / 1000 = exEventLateT.ts / 1000 →
        exEventT.datetime = exEventLateT.datetime) :=
  C4_start_time tzUTC [exEvent, exEventLate] exEventT exEventLateT
    (by decide) (by decide)

/-- C5: inserting an event that no catalog record matches exactly on all
three of `(title, artist_name, duration)` leaves the songplays output
unchanged — unmatched events are excluded entirely by the inner join. -/
theorem C5_unmatched (tz : Int → Int) (l1 l2 : List EventRecord)
    (e : EventRecord) (song_df : List CatalogRecord)
    (h : ∀ s ∈ song_df,
      ¬(e.song = s.title ∧ e.artist = s.artist_name ∧ e.length = s.duration)) :
    songplays_table tz (l1 ++ e :: l2) song_df =
      songplays_table tz (l1 ++ l2) song_df := by
  by_cases hp : e.page = "NextSong"
  · unfold songplays_table joinedRows
    have hfil : filterNextSong (l1 ++ e :: l2) =
        filterNextSong l1 ++ e :: filterNextSong l2 := by
      unfold filterNextSong
      rw [List.filter_append, List.filter_cons]
      simp [hp]
    have hfil2 : filterNextSong (l1 ++ l2) =
        filterNextSong l1 ++ filterNextSong l2 := by
      unfold filterNextSong
      rw [List.filter_append]
    rw [hfil, hfil2]
    unfold withTimeColumns
    rw [List.map_append, List.map_cons, List.map_append,
      List.flatMap_append, List.flatMap_cons, List.flatMap_append]
    have hempty : (song_df.filter (fun s => decide (joinPred
        { toEventRecord := e
          timestamp := get_timestamp e.ts
          datetime := get_datetime tz (get_timestamp e.ts) } s))) = [] := by
      rw [List.filter_eq_nil_iff]
      intro s hs
      simpa [joinPred] using h s hs
    rw [hempty]
    simp
  · unfold songplays_table joinedRows
    rw [filterNextSong_middle hp]

/-- Witness for C5: the spec's negative example — duration 200.01 against a
catalog duration of 200.0 — yields zero songplays rows. -/
theorem C5_witness :
    songplays_table tzUTC ([] ++ exMismatch :: []) [exSong] =
      songplays_table tzUTC ([] ++ []) [exSong] :=
  C5_unmatched tzUTC [] [] exMismatch [exSong] (by decide)

/-- C6: each dimension holds at most one row per uniqueness key — songs by
`song_id`, artists by `artist_id`, users by `userId` — and every retained
row is the projection of some source record (bearing, in particular, that
key). -/
theorem C6_dimension_dedup (song_df : List CatalogRecord)
    (df : List EventRecord) :
    (((songs_table song_df).map (fun r => r.song_id)).Nodup ∧
      ∀ r ∈ songs_table song_df, ∃ c ∈ song_df, r = songRowOf c) ∧
    (((artists_table song_df).map (fun r => r.artist_id)).Nodup ∧
      ∀ r ∈ artists_table song_df, ∃ c ∈ song_df, r = artistRowOf c) ∧
    (((users_table df).map (fun r => r.userId)).Nodup ∧
      ∀ r ∈ users_table df, ∃ e ∈ filterNextSong df, r = userRowOf e) := by
  refine ⟨⟨dedupBy_keys_nodup _ _, fun r hr => ?_⟩,
    ⟨dedupBy_keys_nodup _ _, fun r hr => ?_⟩,
    ⟨dedupBy_keys_nodup _ _, fun r hr => ?_⟩⟩
  · obtain ⟨c, hc, rfl⟩ := List.mem_map.1 (dedupBy_subset _ _ r hr)
    exact ⟨c, hc, rfl⟩
  · obtain ⟨c, hc, rfl⟩ := List.mem_map.1 (dedupBy_subset _ _ r hr)
    exact ⟨c, hc, rfl⟩
  · obtain ⟨e, he, rfl⟩ := List.mem_map.1 (dedupBy_subset _ _ r hr)
    exact ⟨e, he, rfl⟩

/-- Witness for C6 at the example catalog. -/
theorem C6_witness :
    ∃ c ∈ [exSong], songRowOf exSong = songRowOf c :=
  (C6_dimension_dedup [exSong] [exEvent]).1.2 (songRowOf exSong) (by decide)

/-- C7: every songplays row's `start_time` appears as a `start_time` of the
time dimension, and its `user_id` appears as a `userId` of the users
dimension, all three outputs being built from the same filtered events. -/
theorem C7_referential (tz : Int → Int) (df : List EventRecord)
    (song_df : List CatalogRecord) (r : SongplayRow)
    (h : r ∈ songplays_table tz df song_df) :
    r.start_time ∈ (time_table tz df).map (fun t => t.start_time) ∧
      r.user_id ∈ (users_table df).map (fun u => u.userId) := by
  obtain ⟨j, e, s, he, _, _, rfl⟩ := mem_songplays_table h
  constructor
  · have h1 : timeRowOf e.datetime ∈
        (withTimeColumns tz (filterNextSong df)).map (fun r => timeRowOf r.datetime) :=
      List.mem_map_of_mem _ he
    have h2 := dedupBy_keys_mem (fun t : TimeRow => t.start_time) _ _ h1
    obtain ⟨t, ht, hk⟩ := List.mem_map.1 h2
    refine List.mem_map.2 ⟨t, ?_, hk⟩
    exact (List.mem_insertionSort TimeRow.le).2 ht
  · have h0 : e.toEventRecord ∈ filterNextSong df :=
      (mem_withTimeColumns.1 he).1
    have h1 : userRowOf e.toEventRecord ∈
        (filterNextSong df).map userRowOf := List.mem_map_of_mem _ h0
    exact dedupBy_keys_mem (fun u : UserRow => u.userId) _ _ h1

/-- Witness for C7 at the example scenario. -/
theorem C7_witness :
    exSongplay.start_time ∈
        (time_table tzUTC [exEvent]).map (fun t => t.start_time) ∧
      exSongplay.user_id ∈ (users_table [exEvent]).map (fun u => u.userId) :=
  C7_referential tzUTC [exEvent] [exSong] exSongplay (by decide)

/-- C8: the time dimension has pairwise-distinct `start_time` values, a
`start_time` value occurs in it exactly when it occurs among the filtered
events' derived datetimes, and the rows are sorted ascending by
`start_time`. -/
theorem C8_time_table (tz : Int → Int) (df : List EventRecord) :
    ((time_table tz df).map (fun t => t.start_time)).Nodup ∧
    (∀ d : Datetime, (∃ t ∈ time_table tz df, t.start_time = d) ↔
      ∃ e ∈ withTimeColumns tz (filterNextSong df), e.datetime = d) ∧
    (time_table tz df).Sorted TimeRow.le := by
  refine ⟨?_, fun d => ⟨?_, ?_⟩, List.sorted_insertionSort TimeRow.le _⟩
  · have hperm := (List.perm_insertionSort TimeRow.le
      (dedupBy (fun r : TimeRow => r.start_time)
        ((withTimeColumns tz (filterNextSong df)).map (fun r => timeRowOf r.datetime)))).map
      (fun t : TimeRow => t.start_time)
    exact hperm.nodup_iff.2 (dedupBy_keys_nodup _ _)
  · rintro ⟨t, ht, rfl⟩
    have ht' := (List.mem_insertionSort TimeRow.le).1 ht
    obtain ⟨e, he, rfl⟩ := List.mem_map.1 (dedupBy_subset _ _ t ht')
    exact ⟨e, he, rfl⟩
  · rintro ⟨e, he, rfl⟩
    have h1 : timeRowOf e.datetime ∈
        (withTimeColumns tz (filterNextSong df)).map (fun r => timeRowOf r.datetime) :=
      List.mem_map_of_mem _ he
    have h2 := dedupBy_keys_mem (fun t : TimeRow => t.start_time) _ _ h1
    obtain ⟨t, ht, hk⟩ := List.mem_map.1 h2
    exact ⟨t, (List.mem_insertionSort TimeRow.le).2 ht, hk⟩

/-- Witness for C8: the backward direction of the characterization at the
example scenario. -/
theorem C8_witness :
    ∃ t ∈ time_table tzUTC [exEvent], t.start_time = ⟨2001, 9, 9, 1, 46, 40⟩ :=
  ((C8_time_table tzUTC [exEvent]).2.1 ⟨2001, 9, 9, 1, 46, 40⟩).2
    ⟨exEventT, by decide, by decide⟩

/-- C9: the joined result is deduplicated on the full row before id
assignment, so ignoring `songplay_id` the songplays output from a catalog
with exact duplicate records is a permutation of (contains exactly the same
rows as) the output from the catalog with those duplicates removed. -/
theorem C9_dedup_catalog (tz : Int → Int) (df : List EventRecord)
    (song_df : List CatalogRecord) :
    (joinedRows tz df song_df).dedup.Nodup ∧
      ((songplays_table tz df song_df).map SongplayRow.dropId).Perm
        ((songplays_table tz df song_df.dedup).map SongplayRow.dropId) := by
  refine ⟨List.nodup_dedup _, ?_⟩
  have hperm : (joinedRows tz df song_df).dedup.Perm
      (joinedRows tz df song_df.dedup).dedup := by
    rw [List.perm_ext_iff_of_nodup (List.nodup_dedup _) (List.nodup_dedup _)]
    intro p
    rw [List.mem_dedup, List.mem_dedup, mem_joinedRows, mem_joinedRows,
      List.mem_dedup]
  unfold songplays_table
  rw [map_dropId_numberRows, map_dropId_numberRows]
  exact hperm.map _

/-- C10: every time-dimension row's `weekday` lies in `[1, 7]` and equals
the Sunday-first numbering (1 = Sunday … 7 = Saturday) of the day of the
week of its own `start_time` — Spark's `dayofweek` default, which the code
pins. -/
theorem C10_weekday (tz : Int → Int) (df : List EventRecord) (t : TimeRow)
    (h : t ∈ time_table tz df) :
    1 ≤ t.weekday ∧ t.weekday ≤ 7 ∧
      t.weekday = sundayFirstWeekday t.start_time := by
  have ht' := (List.mem_insertionSort TimeRow.le).1 h
  obtain ⟨e, he, rfl⟩ := List.mem_map.1 (dedupBy_subset _ _ t ht')
  have := dayofweek_eq_sundayFirst e.datetime
  exact ⟨this.2.1, this.2.2, this.1⟩

/-- Witness for C10: 2001-09-09 was a Sunday, and the example time row's
`weekday` is 1. -/
theorem C10_witness :
    1 ≤ exTimeRow.weekday ∧ exTimeRow.weekday ≤ 7 ∧
      exTimeRow.weekday = sundayFirstWeekday exTimeRow.start_time :=
  C10_weekday tzUTC [exEvent] exTimeRow (by decide)
